import Mathlib

/-!
Verification development for the brand-response-prototype repository.

The repository is a six-step Streamlit wizard (`src/app.py`) with two helper
modules: `src/utils/ai_helper.py` (variable selection and insight generation
around a text-completion service) and `src/utils/logger.py` (append-only
session event log plus a workflow summarizer).

Shallow-embedding conventions used throughout this file:

* Python values flowing through dicts/JSON are modelled by the inductive
  `PyVal` (Python `None`, bools, ints, floats, `float('nan')`, strings,
  lists, dicts).  Python dicts are association lists `List (String × PyVal)`;
  lookup follows Python semantics (`dictGet?` returns the value of the last
  binding of a key, matching `json.loads`, which keeps the last duplicate).
* The text-completion service (`anthropic` client) is an external
  collaborator.  Each call site wraps the call and the subsequent
  `json.loads` parse in one `try`.  The joint outcome is modelled by
  `LLMOutcome`: either some exception was raised during the call or during
  parsing (`raised`), or the call succeeded and `json.loads` produced a
  value (`parsed`).
* `pandas` dataframes are modelled by `DataFrame`: per-column presence flags
  plus a row list; each row holds `Option`-valued cells for the four columns
  the statistics code reads (missing = `NaN`).  Pandas `NaN` semantics are
  kept: `NaN < 30` is false, `str.contains(..., na=False)` is false on
  missing, `Series.median()` skips missing values.
* Wall-clock timestamps (`datetime.now()`) are not modelled; events carry
  only type and details, which is all the claims depend on.
-/

/-- Model of a runtime Python value as it occurs in the dicts this program
builds: `None`, booleans, ints, floats, `float('nan')`, strings, lists and
(string-keyed) dicts. -/
inductive PyVal where
  | none
  | bool (b : Bool)
  | int (n : ℤ)
  | float (q : ℚ)
  | nan
  | str (s : String)
  | list (xs : List PyVal)
  | dict (kvs : List (String × PyVal))
deriving Repr

/-- Python dict lookup `d.get(k)` on an association list.  The last binding
of a key wins, matching how a Python dict built by repeated insertion (or by
`json.loads`, which keeps the last duplicate key) behaves. -/
def dictGet? (kvs : List (String × PyVal)) (k : String) : Option PyVal :=
  match kvs with
  | [] => Option.none
  | (k', v) :: rest =>
    match dictGet? rest k with
    | some w => some w
    | Option.none => if k' = k then some v else Option.none

/-- Python dict lookup with default, `d.get(k, dflt)`. -/
def dictGetD (kvs : List (String × PyVal)) (k : String) (dflt : PyVal) : PyVal :=
  (dictGet? kvs k).getD dflt

/-- Python dict assignment `d[k] = v`: overwrite the existing binding in
place if the key is present, otherwise append a new binding. -/
def dictSet (kvs : List (String × PyVal)) (k : String) (v : PyVal) :
    List (String × PyVal) :=
  match kvs with
  | [] => [(k, v)]
  | (k', w) :: rest =>
    if k' = k then (k', v) :: rest else (k', w) :: dictSet rest k v

/-- Naive substring test on character lists: `pat` occurs contiguously in
`s`.  Used to model `pandas.Series.str.contains` with a regex that is a
plain alternation of literals. -/
def charsContain (pat : List Char) : List Char → Bool
  | [] => pat.isEmpty
  | c :: rest => pat.isPrefixOf (c :: rest) || charsContain pat rest

/-- Case-sensitive substring test on strings (`pat in s` up to regex literal
matching). -/
def strContains (s pat : String) : Bool :=
  charsContain pat.toList s.toList

section CompletionService

/-- Joint outcome of one completion-service call bundled with the
`json.loads` parse of its response, as seen by the surrounding `try` block:
either an exception was raised somewhere inside the `try` (API error,
malformed JSON, ...), or a parsed Python value came back. -/
inductive LLMOutcome where
  | raised (msg : String)
  | parsed (v : PyVal)
deriving Repr

end CompletionService

section DataModel

/-- One row of the enriched dataframe, restricted to the four columns the
statistics code in `analyze_enriched_data` reads.  `Option.none` models a
missing cell (`NaN`). -/
structure Row where
  age : Option ℚ
  premium_income_hh : Option String
  education : Option String
  urbanicity : Option String
deriving Repr, DecidableEq

/-- Model of a pandas dataframe as used by `analyze_enriched_data`: presence
flags for the four statistically relevant columns (`'AGE' in df.columns`
etc.) plus the row list. -/
structure DataFrame where
  hasAGE : Bool
  hasPREMIUM_INCOME_HH : Bool
  hasEDUCATION : Bool
  hasURBANICITY : Bool
  rows : List Row
deriving Repr, DecidableEq

/-- Column extraction `df['AGE']` restricted to present values: pandas
`median`, and the comparison counts below, skip `NaN` cells. -/
def ages (df : DataFrame) : List ℚ :=
  df.rows.filterMap Row.age

end DataModel

section Median

/-- Pandas `Series.median()` over the non-missing values, exactly as pandas
computes it: sort, take the middle element (odd length) or the mean of the
two middle elements (even length).  `Option.none` models the `NaN` returned
for an empty (all-missing) series. -/
def pandasMedian (xs : List ℚ) : Option ℚ :=
  let s := List.insertionSort (· ≤ ·) xs
  let n := xs.length
  if n = 0 then Option.none
  else if n % 2 = 1 then s[n / 2]?
  else
    match s[n / 2 - 1]?, s[n / 2]? with
    | some a, some b => some ((a + b) / 2)
    | _, _ => Option.none

/-- The ordinary statistical median of a finite multiset of rationals,
specified independently of any particular list order: sort the multiset and
average the middle element(s).  This is the spec-side definition used to
state that the code's median is the exact statistical median of the
non-missing values, independent of row order. -/
def statMedian (m : Multiset ℚ) : Option ℚ :=
  let s := Multiset.sort (· ≤ ·) m
  let n := Multiset.card m
  if n = 0 then Option.none
  else if n % 2 = 1 then s[n / 2]?
  else
    match s[n / 2 - 1]?, s[n / 2]? with
    | some a, some b => some ((a + b) / 2)
    | _, _ => Option.none

theorem sorted_eq_of_perm {l₁ l₂ : List ℚ} (hp : l₁.Perm l₂)
    (h₁ : l₁.Sorted (· ≤ ·)) (h₂ : l₂.Sorted (· ≤ ·)) : l₁ = l₂ :=
  List.eq_of_perm_of_sorted hp h₁ h₂

/-- The list-level median used in the embedding agrees with the order-free
multiset median: pandas' sort and the canonical multiset sort produce the
same sorted list. -/
theorem pandasMedian_eq_statMedian (xs : List ℚ) :
    pandasMedian xs = statMedian (↑xs : Multiset ℚ) := by
  have hperm : (Multiset.sort (· ≤ ·) (↑xs : Multiset ℚ)).Perm xs := by
    have := Multiset.sort_eq (· ≤ ·) (↑xs : Multiset ℚ)
    exact Quotient.exact this
  have hsorted₁ : (List.insertionSort (· ≤ ·) xs).Sorted (· ≤ ·) :=
    List.sorted_insertionSort (· ≤ ·) xs
  have hsorted₂ : (Multiset.sort (· ≤ ·) (↑xs : Multiset ℚ)).Sorted (· ≤ ·) :=
    Multiset.sort_sorted (· ≤ ·) _
  have heq : List.insertionSort (· ≤ ·) xs = Multiset.sort (· ≤ ·) (↑xs : Multiset ℚ) :=
    sorted_eq_of_perm ((List.perm_insertionSort (· ≤ ·) xs).trans hperm.symm)
      hsorted₁ hsorted₂
  have hcard : Multiset.card (↑xs : Multiset ℚ) = xs.length := rfl
  simp only [pandasMedian, statMedian, heq, hcard]

/-- The multiset median is invariant under permutation of the underlying
list, because permutations denote the same multiset. -/
theorem statMedian_perm {xs ys : List ℚ} (h : xs.Perm ys) :
    statMedian (↑xs : Multiset ℚ) = statMedian (↑ys : Multiset ℚ) := by
  congr 1
  exact Quotient.sound h

end Median

section Statistics

/-- Pandas boolean test `df['AGE'] < 30` on one row: a missing cell (`NaN`)
compares false, so it is never counted in the band. -/
def rowAgeUnder30 (r : Row) : Bool :=
  match r.age with
  | some a => decide (a < 30)
  | Option.none => false

/-- Pandas boolean test `(df['AGE'] >= 30) & (df['AGE'] < 50)` on one row;
false on a missing cell. -/
def rowAge30to50 (r : Row) : Bool :=
  match r.age with
  | some a => decide (30 ≤ a) && decide (a < 50)
  | Option.none => false

/-- Pandas boolean test `df['AGE'] >= 50` on one row; false on a missing
cell. -/
def rowAgeOver50 (r : Row) : Bool :=
  match r.age with
  | some a => decide (50 ≤ a)
  | Option.none => false

/-- Test `df['PREMIUM_INCOME_HH'].str.contains('150K|200K|250K', na=False)`
on one row: the regex is an alternation of three literals, and `na=False`
makes a missing cell count as no match. -/
def rowHighIncome (r : Row) : Bool :=
  match r.premium_income_hh with
  | some s => strContains s "150K" || strContains s "200K" || strContains s "250K"
  | Option.none => false

/-- Test `df['EDUCATION'].str.contains('College|Graduate', na=False)` on one
row. -/
def rowCollegePlus (r : Row) : Bool :=
  match r.education with
  | some s => strContains s "College" || strContains s "Graduate"
  | Option.none => false

/-- Test `df['URBANICITY'].str.contains('Urban', na=False)` on one row. -/
def rowUrban (r : Row) : Bool :=
  match r.urbanicity with
  | some s => strContains s "Urban"
  | Option.none => false

/-- The percentage expression `count / len(df) * 100` used for every ratio
statistic in `analyze_enriched_data`.  The denominator is `len(df)`, the
total row count.  On an empty frame numpy produces `0/0 = NaN` (with a
warning), modelled by `PyVal.nan`. -/
def pctPy (c n : ℕ) : PyVal :=
  if n = 0 then PyVal.nan else PyVal.float ((c : ℚ) / n * 100)

/-- A pandas median packaged as the Python value stored in the stats dict:
a float, or `NaN` for an empty series. -/
def medianPy (o : Option ℚ) : PyVal :=
  match o with
  | some q => PyVal.float q
  | Option.none => PyVal.nan

/-- The `age_median` / `age_ranges` block of the local statistics, present
exactly when the frame has an `AGE` column. -/
structure AgeStats where
  age_median : PyVal
  under_30 : PyVal
  age_30_50 : PyVal
  over_50 : PyVal
deriving Repr

/-- The `stats` dict built at the top of `analyze_enriched_data`, with each
key-group present exactly when its column exists in the frame. -/
structure Stats where
  age : Option AgeStats
  high_income_percent : Option PyVal
  college_plus_percent : Option PyVal
  urban_percent : Option PyVal
deriving Repr

/-- The local statistics computation at the top of `analyze_enriched_data`
(src/utils/ai_helper.py lines 186-211), performed before any
completion-service call. -/
def computeStats (df : DataFrame) : Stats :=
  { age :=
      if df.hasAGE then
        some { age_median := medianPy (pandasMedian (ages df))
               under_30 := pctPy (df.rows.countP rowAgeUnder30) df.rows.length
               age_30_50 := pctPy (df.rows.countP rowAge30to50) df.rows.length
               over_50 := pctPy (df.rows.countP rowAgeOver50) df.rows.length }
      else Option.none
    high_income_percent :=
      if df.hasPREMIUM_INCOME_HH then
        some (pctPy (df.rows.countP rowHighIncome) df.rows.length)
      else Option.none
    college_plus_percent :=
      if df.hasEDUCATION then
        some (pctPy (df.rows.countP rowCollegePlus) df.rows.length)
      else Option.none
    urban_percent :=
      if df.hasURBANICITY then
        some (pctPy (df.rows.countP rowUrban) df.rows.length)
      else Option.none }

/-- The `stats` dict as a Python value, in the insertion order of
`analyze_enriched_data`. -/
def statsPy (s : Stats) : PyVal :=
  PyVal.dict
    ((match s.age with
      | some a =>
        [("age_median", a.age_median),
         ("age_ranges", PyVal.dict
            [("under_30", a.under_30), ("age_30_50", a.age_30_50),
             ("over_50", a.over_50)])]
      | Option.none => []) ++
     (match s.high_income_percent with
      | some v => [("high_income_percent", v)]
      | Option.none => []) ++
     (match s.college_plus_percent with
      | some v => [("college_plus_percent", v)]
      | Option.none => []) ++
     (match s.urban_percent with
      | some v => [("urban_percent", v)]
      | Option.none => []))

end Statistics

section VariableSelection

/-- The hardcoded fallback list returned by `get_fallback_variables`
(src/utils/ai_helper.py lines 150-165), verbatim and in source order. -/
def get_fallback_variables : List PyVal :=
  [PyVal.dict [("variable", PyVal.str "AGE"),
               ("rationale", PyVal.str "Core demographic for market segmentation"),
               ("category", PyVal.str "demographics")],
   PyVal.dict [("variable", PyVal.str "INCOME_HH"),
               ("rationale", PyVal.str "Essential for pricing and positioning strategy"),
               ("category", PyVal.str "economic")],
   PyVal.dict [("variable", PyVal.str "EDUCATION"),
               ("rationale", PyVal.str "Indicates sophistication and messaging approach"),
               ("category", PyVal.str "lifestyle")],
   PyVal.dict [("variable", PyVal.str "URBANICITY"),
               ("rationale", PyVal.str "Geographic preferences affect brand positioning"),
               ("category", PyVal.str "lifestyle")],
   PyVal.dict [("variable", PyVal.str "MARITAL_STATUS"),
               ("rationale", PyVal.str "Life stage affects purchasing behavior"),
               ("category", PyVal.str "demographics")],
   PyVal.dict [("variable", PyVal.str "CHILDREN_HH"),
               ("rationale", PyVal.str "Family status impacts product usage patterns"),
               ("category", PyVal.str "demographics")],
   PyVal.dict [("variable", PyVal.str "OCCUPATION_TYPE"),
               ("rationale", PyVal.str "Professional vs blue-collar preferences differ"),
               ("category", PyVal.str "lifestyle")],
   PyVal.dict [("variable", PyVal.str "LIFESTYLE_CLUSTER"),
               ("rationale", PyVal.str "Behavioral segmentation for targeted messaging"),
               ("category", PyVal.str "lifestyle")],
   PyVal.dict [("variable", PyVal.str "HIGH_TECH_AFFINITY"),
               ("rationale", PyVal.str "Technology adoption affects marketing channels"),
               ("category", PyVal.str "interests")],
   PyVal.dict [("variable", PyVal.str "GOURMET_AFFINITY"),
               ("rationale", PyVal.str "Quality appreciation aligns with premium positioning"),
               ("category", PyVal.str "interests")],
   PyVal.dict [("variable", PyVal.str "FITNESS_AFFINITY"),
               ("rationale", PyVal.str "Health consciousness affects product preferences"),
               ("category", PyVal.str "interests")],
   PyVal.dict [("variable", PyVal.str "READING_MAGAZINES"),
               ("rationale", PyVal.str "Media consumption patterns for advertising"),
               ("category", PyVal.str "media")]]

/-- The function `select_variables_with_ai` (src/utils/ai_helper.py lines
118-148).  The business context only feeds the prompt, so the return value
depends on it solely through the completion outcome `o`.  Semantics of the
source, case by case:

* any exception in the `try` (API call or `json.loads`) is caught and the
  function returns `get_fallback_variables()`;
* a parsed dict returns `result.get("selected_variables", [])` - the bound
  value verbatim, or the empty list when the key is absent;
* a parsed non-dict value has no `.get` attribute, so the
  `result.get(...)` line raises `AttributeError`, which the same `except`
  catches: fallback again. -/
def select_variables_with_ai (_businessContext : List (String × PyVal))
    (o : LLMOutcome) : PyVal :=
  match o with
  | LLMOutcome.raised _ => PyVal.list get_fallback_variables
  | LLMOutcome.parsed v =>
    match v with
    | PyVal.dict kvs => (dictGet? kvs "selected_variables").getD (PyVal.list [])
    | _ => PyVal.list get_fallback_variables

end VariableSelection

section Insights

/-- The constant fallback dict returned by `get_mock_insights`
(src/utils/ai_helper.py lines 275-294). -/
def get_mock_insights : List (String × PyVal) :=
  [("executive_summary", PyVal.str "Your customer data analysis reveals significant opportunities for brand repositioning and targeted marketing strategies."),
   ("key_findings", PyVal.list
      [PyVal.str "Customer demographics differ from current brand assumptions",
       PyVal.str "Income levels suggest premium positioning opportunities",
       PyVal.str "Geographic distribution indicates untapped markets"]),
   ("segments", PyVal.dict
      [("Primary Segment", PyVal.dict [("percentage", PyVal.int 45), ("profile", PyVal.str "Core customer group with highest value potential")]),
       ("Growth Segment", PyVal.dict [("percentage", PyVal.int 32), ("profile", PyVal.str "Emerging segment with expansion opportunities")]),
       ("Niche Segment", PyVal.dict [("percentage", PyVal.int 23), ("profile", PyVal.str "Specialized group requiring targeted approach")])]),
   ("recommendations", PyVal.list
      [PyVal.str "Adjust brand messaging to reflect actual customer sophistication",
       PyVal.str "Develop premium service offerings for high-income segments",
       PyVal.str "Optimize marketing channels based on demographic insights"])]

/-- Rendering `str(x)` of a Python scalar as interpolated into the mock
narrative strings.  The decimal rendering of binary floats is abstracted
(rationals print as rationals); no claim depends on the text of these
narrative strings, only on the `raw_stats` entry. -/
def pyStrVal : PyVal → String
  | PyVal.int n => toString n
  | PyVal.float q => toString q
  | PyVal.nan => "nan"
  | PyVal.str s => s
  | PyVal.bool true => "True"
  | PyVal.bool false => "False"
  | PyVal.none => "None"
  | PyVal.list _ => ""
  | PyVal.dict _ => ""

/-- Rendering `f"{x:.1f}"` of a numeric Python value: one decimal place.
Rounding of the binary float's decimal expansion is abstracted as rational
rounding; no claim depends on these strings. -/
def fmtF1 : PyVal → String
  | PyVal.float q =>
      let t : ℤ := round (q * 10)
      let sign := if t < 0 then "-" else ""
      let a := t.natAbs
      sign ++ toString (a / 10) ++ "." ++ toString (a % 10)
  | PyVal.int n => toString n ++ ".0"
  | PyVal.nan => "nan"
  | _ => ""

/-- The Python comparison `x > 40` on a stats value (`NaN > 40` is false). -/
def pyGT40 : PyVal → Bool
  | PyVal.float q => decide (40 < q)
  | PyVal.int n => decide (40 < n)
  | _ => false

/-- The fallback `get_mock_insights_with_stats(stats)`
(src/utils/ai_helper.py lines 296-320): narrative strings interpolating the
already-computed statistics (with `.get` defaults 45 / 0 / 25 / 60 / 70 for
absent keys), fixed segments and recommendations, and the verbatim
`"raw_stats": stats` entry. -/
def get_mock_insights_with_stats (stats : Stats) : List (String × PyVal) :=
  let ageMedianVal := match stats.age with
    | some a => a.age_median
    | Option.none => PyVal.int 45
  let over50Val := match stats.age with
    | some a => a.over_50
    | Option.none => PyVal.int 0
  let ageInsight :=
    "Median customer age is " ++ pyStrVal ageMedianVal ++ " years" ++
      (if pyGT40 over50Val then ", indicating a more mature customer base than typically assumed" else "")
  let hi := match stats.high_income_percent with
    | some v => v
    | Option.none => PyVal.int 25
  let cp := match stats.college_plus_percent with
    | some v => v
    | Option.none => PyVal.int 60
  let up := match stats.urban_percent with
    | some v => v
    | Option.none => PyVal.int 70
  [("executive_summary", PyVal.str ("Analysis of your customer data reveals key insights. " ++ ageInsight ++ ".")),
   ("key_findings", PyVal.list
      [PyVal.str ("High-income customers represent " ++ fmtF1 hi ++ "% of your base"),
       PyVal.str ("College-educated customers comprise " ++ fmtF1 cp ++ "% of your audience"),
       PyVal.str ("Urban customers make up " ++ fmtF1 up ++ "% of your market")]),
   ("segments", PyVal.dict
      [("Affluent Professionals", PyVal.dict [("percentage", PyVal.int 45), ("profile", PyVal.str "High-income, educated urban customers")]),
       ("Emerging Adults", PyVal.dict [("percentage", PyVal.int 30), ("profile", PyVal.str "Younger demographic with growth potential")]),
       ("Mature Market", PyVal.dict [("percentage", PyVal.int 25), ("profile", PyVal.str "Established customers with premium preferences")])]),
   ("recommendations", PyVal.list
      [PyVal.str "Leverage high education levels in sophisticated messaging",
       PyVal.str "Develop urban-focused marketing campaigns",
       PyVal.str "Create premium offerings for affluent segments"]),
   ("raw_stats", statsPy stats)]

/-- The function `analyze_enriched_data` (src/utils/ai_helper.py lines
183-273): compute the local statistics first, then attempt the
completion-service call.  Case by case in the inner `try`:

* any exception (API call or `json.loads`) falls back to
  `get_mock_insights_with_stats(stats)`;
* a parsed dict gets `insights['raw_stats'] = stats` and is returned;
* item assignment on a parsed non-dict raises `TypeError`, caught by the
  same `except`: fallback with stats again.

The business context and selected variables feed only the prompt. -/
def analyze_enriched_data (df : DataFrame)
    (_businessContext : List (String × PyVal)) (_selectedVariables : List PyVal)
    (o : LLMOutcome) : List (String × PyVal) :=
  let stats := computeStats df
  match o with
  | LLMOutcome.raised _ => get_mock_insights_with_stats stats
  | LLMOutcome.parsed (PyVal.dict kvs) => dictSet kvs "raw_stats" (statsPy stats)
  | LLMOutcome.parsed _ => get_mock_insights_with_stats stats

/-- The enriched-data session value: either a real dataframe or the literal
string `"mock_enriched"` stored when the fixture file is missing
(src/app.py line 470). -/
inductive EnrichedData where
  | frame (df : DataFrame)
  | mockStr (s : String)
deriving Repr

/-- The function `generate_customer_insights` (src/utils/ai_helper.py lines
167-181): a string value short-circuits to `get_mock_insights()` before any
service call; a dataframe goes through `analyze_enriched_data` (whose own
`except` already handles every completion failure, and whose statistics
computation is total on frames of this shape, so the outer `except` path is
not reachable in the embedding). -/
def generate_customer_insights (ed : EnrichedData)
    (businessContext : List (String × PyVal)) (selectedVariables : List PyVal)
    (o : LLMOutcome) : List (String × PyVal) :=
  match ed with
  | EnrichedData.mockStr _ => get_mock_insights
  | EnrichedData.frame df => analyze_enriched_data df businessContext selectedVariables o

end Insights

section EventLog

/-- One line of the newline-delimited session log file (src/utils/logger.py
`log_event`): event type plus details dict.  The wall-clock timestamp field
is not modelled. -/
structure SessionEvent where
  event : String
  details : List (String × PyVal)
deriving Repr

/-- Event types written by `SessionLogger` and the handlers in src/app.py:
`session_start` (logger init), `data_upload` / `data_upload_error` (step 1),
`business_context_captured` (step 2), `ai_variable_selection` (step 3),
`data_enrichment_complete` / `data_enrichment_error` (step 4),
`insights_generated` (step 5), `report_exported`,
`workflow_summary_generated`, `session_completed`, `analysis_refinement`
(step 6). -/
def appLoggedEventTypes : List String :=
  ["session_start", "data_upload", "data_upload_error",
   "business_context_captured", "ai_variable_selection",
   "data_enrichment_complete", "data_enrichment_error",
   "insights_generated", "workflow_summary_generated", "report_exported",
   "session_completed", "analysis_refinement"]

/-- The five wizard-step event types the application actually logs for the
context, variable-selection, enrichment, insights and export steps. -/
def wizardStepEventTypes : List String :=
  ["business_context_captured", "ai_variable_selection",
   "data_enrichment_complete", "insights_generated", "report_exported"]

/-- The event types `_create_workflow_narrative` (src/utils/logger.py lines
109-136) recognizes with a per-type sentence template. -/
def narrativeRecognizedEventTypes : List String :=
  ["data_upload", "business_context", "variable_selection",
   "data_enrichment", "insights_generation", "report_export"]

/-- One branch of the `if`/`elif` chain in `_create_workflow_narrative`:
the sentence produced for a recognized event type, or nothing. -/
def narrativeLine (e : SessionEvent) : Option String :=
  let d := e.details
  if e.event = "data_upload" then
    some ("Uploaded customer dataset: " ++ pyStrVal (dictGetD d "records" (PyVal.int 0)) ++
      " records with " ++ pyStrVal (dictGetD d "columns" (PyVal.int 0)) ++ " data fields")
  else if e.event = "business_context" then
    some ("Business context captured: " ++ pyStrVal (dictGetD d "industry" (PyVal.str "Unknown")) ++
      " industry, " ++ pyStrVal (dictGetD d "business_model" (PyVal.str "Unknown")) ++ " model")
  else if e.event = "variable_selection" then
    some ("AI selected " ++ pyStrVal (dictGetD d "variable_count" (PyVal.int 0)) ++
      " strategic variables based on business context")
  else if e.event = "data_enrichment" then
    some ("Enhanced customer data with " ++ pyStrVal (dictGetD d "match_rate" (PyVal.str "N/A")) ++
      " match rate via identity graph")
  else if e.event = "insights_generation" then
    some ("Generated strategic insights analyzing " ++ pyStrVal (dictGetD d "records_analyzed" (PyVal.int 0)) ++
      " records across " ++ pyStrVal (dictGetD d "variables_analyzed" (PyVal.int 0)) ++ " variables")
  else if e.event = "report_export" then
    some ("Exported customer intelligence report in " ++ pyStrVal (dictGetD d "format" (PyVal.str "unknown")) ++
      " format")
  else Option.none

/-- The function `_create_workflow_narrative`: a bulleted list, one line per
recognized event, in original order; unrecognized events are silently
omitted. -/
def createWorkflowNarrative (events : List SessionEvent) : String :=
  String.intercalate "\n" ((events.filterMap narrativeLine).map (fun part => "- " ++ part))

/-- The function `generate_workflow_summary` (src/utils/logger.py lines
56-107).  An empty log short-circuits before any service call; otherwise
the narrative and an audience-specific prompt are sent to the completion
service, whose outcome is the response text (then `.strip()`-ed) or an
exception, which the `except` turns into an error-describing string. -/
def generate_workflow_summary (events : List SessionEvent)
    (_audience : String) (o : Except String String) : String :=
  if events.isEmpty then "No workflow data available."
  else
    match o with
    | Except.ok text => text.trim
    | Except.error e => "Error generating summary: " ++ e

end EventLog

section AppState

/-- The Streamlit session state initialized in `main` (src/app.py lines
57-73) together with the session's log-file contents: step number, client
data, business-context dict, selected variables, enriched data, insights
dict, and the append-only event log. -/
structure AppState where
  step : ℕ
  client_data : Option DataFrame
  business_context : List (String × PyVal)
  selected_variables : List PyVal
  enriched_data : Option EnrichedData
  insights : List (String × PyVal)
  log : List SessionEvent
deriving Repr

/-- The state `main` re-creates after every key of the session state was
deleted: step 1, everything empty, and a brand-new `SessionLogger` whose
fresh log file starts with a `session_start` event for the new session
identity `sid` (src/app.py lines 57-73, src/utils/logger.py lines 14-26). -/
def freshState (sid : String) : AppState :=
  { step := 1
    client_data := Option.none
    business_context := []
    selected_variables := []
    enriched_data := Option.none
    insights := []
    log := [{ event := "session_start", details := [("session_id", PyVal.str sid)] }] }

/-- The `session_completed` event logged by the "Start New Analysis" button
(src/app.py lines 736-741), built from the state about to be destroyed. -/
def sessionCompletedEvent (s : AppState) : SessionEvent :=
  { event := "session_completed"
    details :=
      [("completion_type", PyVal.str "new_analysis_started"),
       ("total_records", dictGetD s.insights "records_analyzed" (PyVal.int 0)),
       ("business_industry", dictGetD s.business_context "industry" (PyVal.str "Unknown"))] }

/-- The "Start New Analysis" reset at step 6 (src/app.py lines 735-744):
log a `session_completed` event, then delete every session key; the rerun
re-enters `main`, which rebuilds the fresh state.  Returns the final
contents of the old session's log file together with the new state. -/
def startNewAnalysis (s : AppState) (sid : String) : List SessionEvent × AppState :=
  (s.log ++ [sessionCompletedEvent s], freshState sid)

/-- The sidebar "Start Over" reset (src/app.py lines 110-113): delete every
session key with no logging at all, then rerun into the fresh state.
Returns the final contents of the old session's log file together with the
new state. -/
def startOver (s : AppState) (sid : String) : List SessionEvent × AppState :=
  (s.log, freshState sid)

end AppState

section Enrichment

/-- The match-rate computation in `show_data_enrichment` (src/app.py line
435): `min(len(enriched_df), len(client_data)) / len(client_data)`. -/
def match_rate (enrichedCount inputCount : ℕ) : ℚ :=
  ((min enrichedCount inputCount : ℕ) : ℚ) / (inputCount : ℚ)

/-- Python `f"{x:.1%}"`: percentage with one decimal place, as used to
report and log the match rate. -/
def fmtPct1 (q : ℚ) : String :=
  let t : ℤ := round (q * 1000)
  let sign := if t < 0 then "-" else ""
  let a := t.natAbs
  sign ++ toString (a / 10) ++ "." ++ toString (a % 10) ++ "%"

/-- The `data_enrichment_complete` event logged on the successful fixture
path of `show_data_enrichment` (src/app.py lines 438-443). -/
def dataEnrichmentCompleteEvent (inputCount enrichedCount varCount : ℕ) : SessionEvent :=
  { event := "data_enrichment_complete"
    details :=
      [("records_processed", PyVal.int inputCount),
       ("variables_added", PyVal.int varCount),
       ("match_rate_percent", PyVal.str (fmtPct1 (match_rate enrichedCount inputCount))),
       ("enrichment_source", PyVal.str "identity_graph_simulation")] }

end Enrichment

section Step5

/-- Observable side effects of one rendering of the step-5 handler: whether
the "complete previous steps" warning was rendered, whether local
statistics were computed, and whether the completion service was called. -/
structure Step5Effects where
  warned : Bool
  statsComputed : Bool
  completionCalled : Bool
deriving Repr, DecidableEq

/-- The `insights_generated` event logged on the success path of
`show_generate_insights` (src/app.py lines 524-529). -/
def insightsGeneratedEvent (insights : List (String × PyVal))
    (businessContext : List (String × PyVal)) : SessionEvent :=
  { event := "insights_generated"
    details :=
      [("records_analyzed", dictGetD insights "records_analyzed" (PyVal.int 0)),
       ("variables_analyzed", dictGetD insights "variables_analyzed" (PyVal.int 0)),
       ("ai_analysis_success", PyVal.bool true),
       ("business_industry", dictGetD businessContext "industry" (PyVal.str "Unknown"))] }

/-- The step-5 handler `show_generate_insights` (src/app.py lines 501-546).
The precondition check at lines 505-507 (`enriched_data is None or not
selected_variables`) renders a warning and returns before any button or
computation.  Otherwise, if the generate button was pressed, insights are
produced by `generate_customer_insights` (statistics and a service call
happen only on the dataframe path, none on the `"mock_enriched"` string
path), stored in the session, and logged; `generate_customer_insights`
catches every service failure internally, so the handler's own `except`
fallback (lines 531-546) is unreachable in the embedding. -/
def show_generate_insights (s : AppState) (generatePressed : Bool)
    (o : LLMOutcome) : AppState × Step5Effects :=
  if s.enriched_data.isNone || s.selected_variables.isEmpty then
    (s, { warned := true, statsComputed := false, completionCalled := false })
  else if generatePressed then
    match s.enriched_data with
    | some ed =>
      let insights := generate_customer_insights ed s.business_context s.selected_variables o
      ({ s with
          insights := insights
          log := s.log ++ [insightsGeneratedEvent insights s.business_context] },
       { warned := false
         statsComputed := match ed with | EnrichedData.frame _ => true | EnrichedData.mockStr _ => false
         completionCalled := match ed with | EnrichedData.frame _ => true | EnrichedData.mockStr _ => false })
    | Option.none =>
      (s, { warned := true, statsComputed := false, completionCalled := false })
  else
    (s, { warned := false, statsComputed := false, completionCalled := false })

/-- The workflow-summary buttons at step 6 (src/app.py lines 707-728): call
`generate_workflow_summary` on the session log, then log a
`workflow_summary_generated` event whose `summary_length` is the length of
whatever string came back. -/
def workflowSummaryClick (s : AppState) (audience : String)
    (o : Except String String) : AppState :=
  let summary := generate_workflow_summary s.log audience o
  { s with
      log := s.log ++
        [{ event := "workflow_summary_generated"
           details := [("audience", PyVal.str audience),
                       ("summary_length", PyVal.int (summary.length : ℤ))] }] }

end Step5

section CountLemmas

/-- Counting rows whose `AGE` cell is present and below 30 is counting
`< 30` over the column of present values: a missing cell is never counted. -/
theorem countP_rowAgeUnder30 (rows : List Row) :
    rows.countP rowAgeUnder30 =
      (rows.filterMap Row.age).countP (fun a => decide (a < 30)) := by
  induction rows with
  | nil => rfl
  | cons r rest ih =>
    cases h : r.age <;>
      simp [List.countP_cons, List.filterMap_cons, rowAgeUnder30, h, ih]

theorem countP_rowAge30to50 (rows : List Row) :
    rows.countP rowAge30to50 =
      (rows.filterMap Row.age).countP (fun a => decide (30 ≤ a) && decide (a < 50)) := by
  induction rows with
  | nil => rfl
  | cons r rest ih =>
    cases h : r.age <;>
      simp [List.countP_cons, List.filterMap_cons, rowAge30to50, h, ih]

theorem countP_rowAgeOver50 (rows : List Row) :
    rows.countP rowAgeOver50 =
      (rows.filterMap Row.age).countP (fun a => decide (50 ≤ a)) := by
  induction rows with
  | nil => rfl
  | cons r rest ih =>
    cases h : r.age <;>
      simp [List.countP_cons, List.filterMap_cons, rowAgeOver50, h, ih]

theorem countP_rowHighIncome (rows : List Row) :
    rows.countP rowHighIncome =
      (rows.filterMap Row.premium_income_hh).countP
        (fun s => strContains s "150K" || strContains s "200K" || strContains s "250K") := by
  induction rows with
  | nil => rfl
  | cons r rest ih =>
    cases h : r.premium_income_hh <;>
      simp [List.countP_cons, List.filterMap_cons, rowHighIncome, h, ih]

theorem countP_rowCollegePlus (rows : List Row) :
    rows.countP rowCollegePlus =
      (rows.filterMap Row.education).countP
        (fun s => strContains s "College" || strContains s "Graduate") := by
  induction rows with
  | nil => rfl
  | cons r rest ih =>
    cases h : r.education <;>
      simp [List.countP_cons, List.filterMap_cons, rowCollegePlus, h, ih]

theorem countP_rowUrban (rows : List Row) :
    rows.countP rowUrban =
      (rows.filterMap Row.urbanicity).countP (fun s => strContains s "Urban") := by
  induction rows with
  | nil => rfl
  | cons r rest ih =>
    cases h : r.urbanicity <;>
      simp [List.countP_cons, List.filterMap_cons, rowUrban, h, ih]

end CountLemmas

/-- C1: for every business context, any exception during the
completion-service call or during parsing makes `select_variables_with_ai`
return (not raise) exactly the fixed hardcoded 12-entry fallback sequence,
whose `variable` fields are AGE, INCOME_HH, EDUCATION, URBANICITY,
MARITAL_STATUS, CHILDREN_HH, OCCUPATION_TYPE, LIFESTYLE_CLUSTER,
HIGH_TECH_AFFINITY, GOURMET_AFFINITY, FITNESS_AFFINITY, READING_MAGAZINES,
in that order. -/
theorem select_variables_fallback_on_exception
    (ctx : List (String × PyVal)) (msg : String) :
    select_variables_with_ai ctx (LLMOutcome.raised msg) =
      PyVal.list get_fallback_variables ∧
    get_fallback_variables.length = 12 ∧
    get_fallback_variables.map
        (fun v => match v with
          | PyVal.dict kvs => dictGetD kvs "variable" PyVal.none
          | _ => PyVal.none) =
      [PyVal.str "AGE", PyVal.str "INCOME_HH", PyVal.str "EDUCATION",
       PyVal.str "URBANICITY", PyVal.str "MARITAL_STATUS", PyVal.str "CHILDREN_HH",
       PyVal.str "OCCUPATION_TYPE", PyVal.str "LIFESTYLE_CLUSTER",
       PyVal.str "HIGH_TECH_AFFINITY", PyVal.str "GOURMET_AFFINITY",
       PyVal.str "FITNESS_AFFINITY", PyVal.str "READING_MAGAZINES"] :=
  ⟨rfl, rfl, rfl⟩

/-- C3: in structured mode (a real dataframe), when the completion call or
response parsing raises, `generate_customer_insights` still returns the
with-stats fallback, and its `raw_stats` entry is exactly the already
computed local statistics; no exception escapes (the function is total). -/
theorem insights_fallback_keeps_raw_stats (df : DataFrame)
    (ctx : List (String × PyVal)) (vars : List PyVal) (msg : String) :
    generate_customer_insights (EnrichedData.frame df) ctx vars (LLMOutcome.raised msg) =
      get_mock_insights_with_stats (computeStats df) ∧
    dictGet?
        (generate_customer_insights (EnrichedData.frame df) ctx vars (LLMOutcome.raised msg))
        "raw_stats" =
      some (statsPy (computeStats df)) :=
  ⟨rfl, rfl⟩

/-- C6 counterexample: a successful completion whose parsed JSON object
binds `selected_variables` to an empty array makes
`select_variables_with_ai` return the empty sequence, refuting "returns a
non-empty sequence for all completion-service responses". -/
theorem select_variables_empty_counterexample :
    select_variables_with_ai []
        (LLMOutcome.parsed (PyVal.dict [("selected_variables", PyVal.list [])])) =
      PyVal.list [] ∧
    select_variables_with_ai []
        (LLMOutcome.parsed (PyVal.dict [("other_key", PyVal.int 1)])) =
      PyVal.list [] :=
  ⟨rfl, rfl⟩

/-- C6 amended: for every business context, `select_variables_with_ai`
returns the non-empty 12-entry fallback whenever the completion call or
parsing raises, and also when the parsed value is not a JSON object; a
parsed object returns its `selected_variables` value verbatim, which is the
empty sequence exactly when the key is absent or bound to an empty array. -/
theorem select_variables_nonempty_amended (ctx : List (String × PyVal)) :
    (∀ msg, select_variables_with_ai ctx (LLMOutcome.raised msg) =
        PyVal.list get_fallback_variables) ∧
    get_fallback_variables.length = 12 ∧
    (∀ v, (∀ kvs, v ≠ PyVal.dict kvs) →
      select_variables_with_ai ctx (LLMOutcome.parsed v) =
        PyVal.list get_fallback_variables) ∧
    (∀ kvs xs, dictGet? kvs "selected_variables" = some (PyVal.list xs) →
      select_variables_with_ai ctx (LLMOutcome.parsed (PyVal.dict kvs)) =
        PyVal.list xs) ∧
    (∀ kvs, dictGet? kvs "selected_variables" = Option.none →
      select_variables_with_ai ctx (LLMOutcome.parsed (PyVal.dict kvs)) =
        PyVal.list []) := by
  refine ⟨fun msg => rfl, rfl, ?_, ?_, ?_⟩
  · intro v hv
    match v with
    | PyVal.dict kvs => exact absurd rfl (hv kvs)
    | PyVal.none => rfl
    | PyVal.bool b => rfl
    | PyVal.int n => rfl
    | PyVal.float q => rfl
    | PyVal.nan => rfl
    | PyVal.str s => rfl
    | PyVal.list xs => rfl
  · intro kvs xs h
    simp [select_variables_with_ai, h]
  · intro kvs h
    simp [select_variables_with_ai, h]

/-- C6 amended, witness: a parsed object with a one-entry
`selected_variables` array returns exactly that array. -/
theorem select_variables_nonempty_amended_witness :
    dictGet? [("selected_variables", PyVal.list [PyVal.str "AGE"])] "selected_variables" =
      some (PyVal.list [PyVal.str "AGE"]) ∧
    select_variables_with_ai []
        (LLMOutcome.parsed (PyVal.dict [("selected_variables", PyVal.list [PyVal.str "AGE"])])) =
      PyVal.list [PyVal.str "AGE"] :=
  ⟨rfl, (select_variables_nonempty_amended []).2.2.2.1
    [("selected_variables", PyVal.list [PyVal.str "AGE"])] [PyVal.str "AGE"] rfl⟩

section ClaimC2

/-- The claim's reading of the under-30 band, following the spec's words:
the denominator is the count of non-missing `AGE` values, not the total row
count. -/
def claimedUnder30Pct (df : DataFrame) : PyVal :=
  pctPy ((ages df).countP (fun a => decide (a < 30))) (ages df).length

/-- The claim's reading of the high-income statistic, following the spec's
words: denominator = count of non-missing `PREMIUM_INCOME_HH` values. -/
def claimedHighIncomePct (df : DataFrame) : PyVal :=
  pctPy
    ((df.rows.filterMap Row.premium_income_hh).countP
      (fun s => strContains s "150K" || strContains s "200K" || strContains s "250K"))
    (df.rows.filterMap Row.premium_income_hh).length

/-- A row with every cell missing. -/
def rowBlank : Row :=
  { age := Option.none, premium_income_hh := Option.none
    education := Option.none, urbanicity := Option.none }

/-- A two-row frame with `AGE` and `PREMIUM_INCOME_HH` columns: one row
with age 25 and income text `"$150K-$174K"`, one row with both cells
missing. -/
def dfC2 : DataFrame :=
  { hasAGE := true, hasPREMIUM_INCOME_HH := true
    hasEDUCATION := false, hasURBANICITY := false
    rows := [{ rowBlank with age := some 25, premium_income_hh := some "$150K-$174K" },
             rowBlank] }

/-- C2 counterexample: on a frame with one age-25 row and one missing-age
row the code computes an under-30 percentage of 50 (denominator `len(df)`
= 2), while the claim's non-missing denominator would give 100; likewise
for the high-income percentage.  Rows with missing values are NOT excluded
from the denominator. -/
theorem missing_denominator_counterexample :
    ((computeStats dfC2).age.map AgeStats.under_30) = some (PyVal.float 50) ∧
    claimedUnder30Pct dfC2 = PyVal.float 100 ∧
    (computeStats dfC2).high_income_percent = some (PyVal.float 50) ∧
    claimedHighIncomePct dfC2 = PyVal.float 100 := by
  refine ⟨?_, ?_, ?_, ?_⟩ <;>
    simp +decide [computeStats, dfC2, rowBlank, ages, pctPy,
      claimedUnder30Pct, claimedHighIncomePct, rowAgeUnder30, rowHighIncome,
      List.countP_cons, List.filterMap_cons] <;>
    norm_num

/-- C2 amended: every percentage statistic counts in its numerator only the
rows whose cell for that column is present and matches (a missing value is
never treated as zero or as a match), but divides by the total row count
`len(df)`, not by the count of non-missing values. -/
theorem percentage_stats_amended (df : DataFrame)
    (hA : df.hasAGE = true) (hI : df.hasPREMIUM_INCOME_HH = true)
    (hE : df.hasEDUCATION = true) (hU : df.hasURBANICITY = true)
    (hne : df.rows.length ≠ 0) :
    (computeStats df).age.map AgeStats.under_30 =
      some (PyVal.float
        (((ages df).countP (fun a => decide (a < 30)) : ℚ) / df.rows.length * 100)) ∧
    (computeStats df).age.map AgeStats.age_30_50 =
      some (PyVal.float
        (((ages df).countP (fun a => decide (30 ≤ a) && decide (a < 50)) : ℚ) / df.rows.length * 100)) ∧
    (computeStats df).age.map AgeStats.over_50 =
      some (PyVal.float
        (((ages df).countP (fun a => decide (50 ≤ a)) : ℚ) / df.rows.length * 100)) ∧
    (computeStats df).high_income_percent =
      some (PyVal.float
        (((df.rows.filterMap Row.premium_income_hh).countP
            (fun s => strContains s "150K" || strContains s "200K" || strContains s "250K") : ℚ) /
          df.rows.length * 100)) ∧
    (computeStats df).college_plus_percent =
      some (PyVal.float
        (((df.rows.filterMap Row.education).countP
            (fun s => strContains s "College" || strContains s "Graduate") : ℚ) /
          df.rows.length * 100)) ∧
    (computeStats df).urban_percent =
      some (PyVal.float
        (((df.rows.filterMap Row.urbanicity).countP (fun s => strContains s "Urban") : ℚ) /
          df.rows.length * 100)) := by
  refine ⟨?_, ?_, ?_, ?_, ?_, ?_⟩ <;>
    simp [computeStats, hA, hI, hE, hU, pctPy, hne, ages,
      countP_rowAgeUnder30, countP_rowAge30to50, countP_rowAgeOver50,
      countP_rowHighIncome, countP_rowCollegePlus, countP_rowUrban]

/-- C2 amended, witness: the amended statement instantiated on the concrete
two-row frame `dfC2` extended with education and urbanicity columns. -/
def dfC2full : DataFrame :=
  { hasAGE := true, hasPREMIUM_INCOME_HH := true
    hasEDUCATION := true, hasURBANICITY := true
    rows := [{ age := some 25, premium_income_hh := some "$150K-$174K"
               education := some "College Degree", urbanicity := some "Urban" },
             rowBlank] }

theorem percentage_stats_amended_witness :
    dfC2full.hasAGE = true ∧ dfC2full.rows.length ≠ 0 ∧
    (computeStats dfC2full).age.map AgeStats.under_30 =
      some (PyVal.float
        (((ages dfC2full).countP (fun a => decide (a < 30)) : ℚ) / dfC2full.rows.length * 100)) :=
  ⟨rfl, by decide,
   (percentage_stats_amended dfC2full rfl rfl rfl rfl (by decide)).1⟩

/-- C8: in structured mode, for every frame with an `AGE` column the
computed `age_median` is the exact statistical median (the order-free
multiset median) of the non-missing `AGE` values, and it is invariant under
any permutation of the input rows. -/
theorem age_median_exact_and_order_invariant (df df' : DataFrame)
    (hA : df.hasAGE = true) (hA' : df'.hasAGE = true)
    (hperm : df.rows.Perm df'.rows) :
    (computeStats df).age.map AgeStats.age_median =
      some (medianPy (statMedian (↑(ages df) : Multiset ℚ))) ∧
    (computeStats df').age.map AgeStats.age_median =
      (computeStats df).age.map AgeStats.age_median := by
  have h1 : (computeStats df).age.map AgeStats.age_median =
      some (medianPy (pandasMedian (ages df))) := by
    simp [computeStats, hA]
  have h1' : (computeStats df').age.map AgeStats.age_median =
      some (medianPy (pandasMedian (ages df'))) := by
    simp [computeStats, hA']
  have hagesperm : (ages df).Perm (ages df') := hperm.filterMap Row.age
  constructor
  · rw [h1, pandasMedian_eq_statMedian]
  · rw [h1, h1', pandasMedian_eq_statMedian, pandasMedian_eq_statMedian,
      statMedian_perm hagesperm]

/-- A four-row frame with ages 42, 28, missing, 55. -/
def dfC8 : DataFrame :=
  { hasAGE := true, hasPREMIUM_INCOME_HH := false
    hasEDUCATION := false, hasURBANICITY := false
    rows := [{ rowBlank with age := some 42 }, { rowBlank with age := some 28 },
             rowBlank, { rowBlank with age := some 55 }] }

/-- The same frame with the first two rows swapped. -/
def dfC8' : DataFrame :=
  { dfC8 with
    rows := [{ rowBlank with age := some 28 }, { rowBlank with age := some 42 },
             rowBlank, { rowBlank with age := some 55 }] }

/-- C8 witness: on the concrete frame with non-missing ages 42, 28, 55 the
median is 42 (the missing cell is skipped), and the row-swapped frame
yields the same value. -/
theorem age_median_exact_and_order_invariant_witness :
    dfC8.hasAGE = true ∧ dfC8'.hasAGE = true ∧ dfC8.rows.Perm dfC8'.rows ∧
    (computeStats dfC8).age.map AgeStats.age_median =
      some (medianPy (statMedian (↑(ages dfC8) : Multiset ℚ))) ∧
    (computeStats dfC8').age.map AgeStats.age_median =
      (computeStats dfC8).age.map AgeStats.age_median ∧
    (computeStats dfC8).age.map AgeStats.age_median = some (PyVal.float 42) := by
  have hperm : dfC8.rows.Perm dfC8'.rows := List.Perm.swap _ _ _
  have h := age_median_exact_and_order_invariant dfC8 dfC8' rfl rfl hperm
  refine ⟨rfl, rfl, hperm, h.1, h.2, ?_⟩
  simp +decide [computeStats, dfC8, rowBlank, ages, medianPy, pandasMedian,
    List.filterMap_cons, List.insertionSort, List.orderedInsert]

/-- C4: the match rate computed at step 4 equals
`enriched_count / input_count` clamped to at most 1 (it is exactly the
quotient whenever `enriched_count ≤ input_count`), and the 480-of-500 case
is reported as exactly 96.0%. -/
theorem match_rate_clamped (e i : ℕ) (h : 0 < i) :
    match_rate e i = min ((e : ℚ) / i) 1 ∧
    match_rate e i ≤ 1 ∧
    (e ≤ i → match_rate e i = (e : ℚ) / i) ∧
    match_rate 480 500 = 96 / 100 ∧
    fmtPct1 (match_rate 480 500) = "96.0%" := by
  have hi : (0 : ℚ) < i := by exact_mod_cast h
  have hne : (i : ℚ) ≠ 0 := ne_of_gt hi
  have hmin : match_rate e i = min ((e : ℚ) / i) 1 := by
    unfold match_rate
    rw [Nat.cast_min, ← min_div_div_right (le_of_lt hi), div_self hne]
  have h480 : match_rate 480 500 = 96 / 100 := by
    norm_num [match_rate]
  refine ⟨hmin, ?_, ?_, h480, ?_⟩
  · rw [hmin]; exact min_le_right _ _
  · intro hle
    unfold match_rate
    rw [Nat.min_eq_left hle]
  · have h2 : ((96 : ℚ) / 100) * 1000 = ((960 : ℤ) : ℚ) := by norm_num
    have h3 : round (((96 : ℚ) / 100) * 1000) = (960 : ℤ) := by
      rw [h2, round_intCast]
    simp +decide [fmtPct1, h480, h3]

/-- C4 witness: the clamping theorem instantiated at the 480-of-500
scenario. -/
theorem match_rate_clamped_witness :
    0 < 500 ∧ match_rate 480 500 ≤ 1 ∧ fmtPct1 (match_rate 480 500) = "96.0%" :=
  ⟨by norm_num, (match_rate_clamped 480 500 (by norm_num)).2.1,
   (match_rate_clamped 480 500 (by norm_num)).2.2.2.2⟩

section ClaimC5

/-- A session state at the terminal step with insights and context
captured, whose log has no `session_completed` event yet. -/
def stateAtStep6 : AppState :=
  { step := 6
    client_data := Option.none
    business_context := [("industry", PyVal.str "Food & Beverage")]
    selected_variables := [PyVal.dict [("variable", PyVal.str "AGE")]]
    enriched_data := Option.none
    insights := [("insights_text", PyVal.str "demo"), ("records_analyzed", PyVal.int 500)]
    log := [{ event := "session_start", details := [] },
            { event := "insights_generated", details := [] }] }

/-- C5 counterexample: the sidebar "Start Over" reset (src/app.py lines
110-113) clears the whole session without logging anything, so this reset
appends zero `session_completed` events, refuting "every reset appends
exactly one". -/
theorem reset_without_completion_event_counterexample :
    (startOver stateAtStep6 "20250101_000000").1.countP
        (fun e => e.event == "session_completed") = 0 ∧
    (startOver stateAtStep6 "20250101_000000").2.step = 1 :=
  ⟨rfl, rfl⟩

/-- C5 amended: the step-6 "Start New Analysis" reset appends exactly one
`session_completed` event, built from the state about to be destroyed,
before the state is cleared, and leaves the session at step 1 with all
fields cleared; the sidebar "Start Over" reset also clears to step 1 but
appends no event at all. -/
theorem session_completed_on_new_analysis (s : AppState) (sid : String) :
    (startNewAnalysis s sid).1 = s.log ++ [sessionCompletedEvent s] ∧
    (startNewAnalysis s sid).1.countP (fun e => e.event == "session_completed") =
      s.log.countP (fun e => e.event == "session_completed") + 1 ∧
    (sessionCompletedEvent s).details =
      [("completion_type", PyVal.str "new_analysis_started"),
       ("total_records", dictGetD s.insights "records_analyzed" (PyVal.int 0)),
       ("business_industry", dictGetD s.business_context "industry" (PyVal.str "Unknown"))] ∧
    (startNewAnalysis s sid).2 = freshState sid ∧
    (freshState sid).step = 1 ∧
    (freshState sid).business_context = [] ∧
    (freshState sid).client_data = Option.none ∧
    (freshState sid).selected_variables = [] ∧
    (freshState sid).enriched_data = Option.none ∧
    (freshState sid).insights = [] ∧
    (startOver s sid).1 = s.log ∧
    (startOver s sid).2 = freshState sid := by
  refine ⟨rfl, ?_, rfl, rfl, rfl, rfl, rfl, rfl, rfl, rfl, rfl, rfl⟩
  simp [startNewAnalysis, List.countP_append, List.countP_cons, sessionCompletedEvent]

end ClaimC5

/-- C7: whenever the enriched record set is absent or no variables are
selected, the step-5 handler renders the warning and does nothing else: no
completion call, no statistics, and the session state is returned
unchanged. -/
theorem step5_warning_noop (s : AppState) (pressed : Bool) (o : LLMOutcome)
    (h : s.enriched_data.isNone = true ∨ s.selected_variables = []) :
    show_generate_insights s pressed o =
      (s, { warned := true, statsComputed := false, completionCalled := false }) := by
  have hcond : (s.enriched_data.isNone || s.selected_variables.isEmpty) = true := by
    rcases h with h | h
    · simp [h]
    · simp [h]
  simp [show_generate_insights, hcond]

/-- C7 witness: the handler at a state with no enriched data, with the
generate button pressed, warns and changes nothing. -/
theorem step5_warning_noop_witness :
    (stateAtStep6.enriched_data.isNone = true ∨ stateAtStep6.selected_variables = []) ∧
    show_generate_insights stateAtStep6 true (LLMOutcome.raised "err") =
      (stateAtStep6, { warned := true, statsComputed := false, completionCalled := false }) :=
  ⟨Or.inl rfl,
   step5_warning_noop stateAtStep6 true (LLMOutcome.raised "err") (Or.inl rfl)⟩

/-- C9: for every non-empty event log and any audience, a
completion-service exception makes `generate_workflow_summary` return the
error-describing string (it never raises), and the caller then logs a
`workflow_summary_generated` event whose `summary_length` is exactly the
length of that error string. -/
theorem summary_error_string_logged (s : AppState) (audience : String) (e : String)
    (h : s.log ≠ []) :
    generate_workflow_summary s.log audience (Except.error e) =
      "Error generating summary: " ++ e ∧
    (workflowSummaryClick s audience (Except.error e)).log =
      s.log ++
        [{ event := "workflow_summary_generated"
           details := [("audience", PyVal.str audience),
                       ("summary_length",
                        PyVal.int (("Error generating summary: " ++ e).length : ℤ))] }] := by
  have hne : s.log.isEmpty = false := by
    cases hlog : s.log with
    | nil => exact absurd hlog h
    | cons a t => rfl
  constructor
  · simp [generate_workflow_summary, hne]
  · simp [workflowSummaryClick, generate_workflow_summary, hne]

/-- C9 witness: the summary-error theorem instantiated on a concrete state
and error message. -/
theorem summary_error_string_logged_witness :
    stateAtStep6.log ≠ [] ∧
    generate_workflow_summary stateAtStep6.log "internal"
        (Except.error "API connection failed") =
      "Error generating summary: " ++ "API connection failed" :=
  ⟨by simp [stateAtStep6],
   (summary_error_string_logged stateAtStep6 "internal" "API connection failed"
     (by simp [stateAtStep6])).1⟩

section ClaimC10

/-- Any application-logged event other than `data_upload` falls through the
whole `if`/`elif` chain of `_create_workflow_narrative`. -/
theorem narrativeLine_none_of_appLogged (e : SessionEvent)
    (h : e.event ∈ appLoggedEventTypes) (hne : e.event ≠ "data_upload") :
    narrativeLine e = Option.none := by
  simp [appLoggedEventTypes] at h
  rcases h with h|h|h|h|h|h|h|h|h|h|h|h <;>
    first
    | exact absurd h hne
    | simp [narrativeLine, h]

/-- Filtering an all-application-logged event list down to its
`data_upload` events does not change the narrative lines produced. -/
theorem filterMap_narrativeLine_filter (events : List SessionEvent)
    (hall : ∀ e ∈ events, e.event ∈ appLoggedEventTypes) :
    (events.filter (fun e => e.event == "data_upload")).filterMap narrativeLine =
      events.filterMap narrativeLine := by
  induction events with
  | nil => rfl
  | cons e rest ih =>
    have he := hall e (List.mem_cons_self e rest)
    have hrest : ∀ x ∈ rest, x.event ∈ appLoggedEventTypes :=
      fun x hx => hall x (List.mem_cons_of_mem e hx)
    by_cases hd : e.event = "data_upload"
    · have hb : (e.event == "data_upload") = true := by simp [hd]
      simp only [List.filter_cons, hb, if_pos]
      cases hnl : narrativeLine e <;>
        simp [List.filterMap_cons, hnl, ih hrest]
    · have hb : (e.event == "data_upload") = false := by simp [hd]
      have hnone := narrativeLine_none_of_appLogged e he hd
      simp [List.filter_cons, hb, List.filterMap_cons, hnone, ih hrest]

/-- C10: the five wizard-step event types the application logs are disjoint
from the event types the narrative builder recognizes, so for any event
list the application can log, `_create_workflow_narrative` produces a
sentence only for `data_upload` events and silently omits everything
else. -/
theorem narrative_omits_app_events :
    (∀ t ∈ wizardStepEventTypes, t ∉ narrativeRecognizedEventTypes) ∧
    (∀ e : SessionEvent, e.event ∈ appLoggedEventTypes → e.event ≠ "data_upload" →
      narrativeLine e = Option.none) ∧
    (∀ d, narrativeLine { event := "data_upload", details := d } ≠ Option.none) ∧
    (∀ events : List SessionEvent,
      (∀ e ∈ events, e.event ∈ appLoggedEventTypes) →
      createWorkflowNarrative events =
        createWorkflowNarrative (events.filter (fun e => e.event == "data_upload"))) := by
  refine ⟨by decide, narrativeLine_none_of_appLogged, ?_, ?_⟩
  · intro d
    simp [narrativeLine]
  · intro events hall
    unfold createWorkflowNarrative
    rw [filterMap_narrativeLine_filter events hall]

/-- A concrete session's worth of application-logged events. -/
def c10Events : List SessionEvent :=
  [{ event := "session_start", details := [] },
   { event := "data_upload",
     details := [("records", PyVal.int 500), ("columns", PyVal.int 8)] },
   { event := "business_context_captured", details := [] },
   { event := "ai_variable_selection", details := [] },
   { event := "data_enrichment_complete", details := [] },
   { event := "insights_generated", details := [] },
   { event := "report_exported", details := [] }]

/-- C10 witness: on a concrete log of application events the narrative
equals the narrative of its `data_upload` events alone, and that narrative
is the single upload sentence. -/
theorem narrative_omits_app_events_witness :
    (∀ e ∈ c10Events, e.event ∈ appLoggedEventTypes) ∧
    createWorkflowNarrative c10Events =
      createWorkflowNarrative (c10Events.filter (fun e => e.event == "data_upload")) ∧
    createWorkflowNarrative c10Events =
      "- Uploaded customer dataset: 500 records with 8 data fields" :=
  ⟨by decide, narrative_omits_app_events.2.2.2 c10Events (by decide), rfl⟩

end ClaimC10
